import Mathlib

/-!
# RentShield evidence engine — shallow embedding and verification

This file embeds, in Lean 4, the core of the RentShield evidence
verification engine (the `app/services` layer of the repository:
`evidence_validator.py`, `evidence_pipeline.py`, `llm_service.py`) and
proves / refutes the frozen specification claims about it.

Modelling conventions:
* Python `Optional[str]` / `Optional[float]` fields become `Option String` /
  `Option ℚ`; Python truthiness of such a field (`if x:`) is `pyTruthyStr` /
  `pyTruthyQ` (an empty string and the float `0.0` are falsy).
* Python ints are `ℤ`; Python floats are `ℚ` together with an explicit
  correct-rounding function `roundDouble` modelling IEEE-754 binary64
  round-to-nearest-even wherever the bit-level behaviour matters
  (the final-score aggregation).
* Exceptions become `Except`; external effects (HTTP calls, the wall clock,
  `json.loads`) become explicit parameters so that each code path of the
  source is a value of the parameter.
-/

set_option linter.unusedVariables false

namespace RentShield

/-! ## Python value model

`PyVal` models the untyped values that `json.loads` produces and that the
model services pass around: `None`, booleans, ints, floats, strings, lists
and string-keyed dicts (modelled as association lists, first key wins,
mirroring lookup in a Python dict whose keys are unique). -/

inductive PyVal where
  | nullv : PyVal
  | boolv : Bool → PyVal
  | intv : ℤ → PyVal
  | floatv : ℚ → PyVal
  | strv : String → PyVal
  | listv : List PyVal → PyVal
  | dictv : List (String × PyVal) → PyVal
deriving Repr, Inhabited

/-- `d.get(key, default)` on a dict modelled as an association list. -/
def dictGet (entries : List (String × PyVal)) (key : String) (dflt : PyVal) : PyVal :=
  match entries.lookup key with
  | some v => v
  | none => dflt

/-- `key in d` / `d.get(key)` presence. -/
def dictFind (entries : List (String × PyVal)) (key : String) : Option PyVal :=
  entries.lookup key

/-! ## Python truthiness and small string helpers -/

/-- Truthiness of an `Optional[str]` field: `None` and `""` are falsy. -/
def pyTruthyStr : Option String → Bool
  | none => false
  | some s => !(s = "")

/-- Truthiness of an `Optional[float]` field: `None` and `0.0` are falsy. -/
def pyTruthyQ : Option ℚ → Bool
  | none => false
  | some q => !(q = 0)

/-- The whitespace set of Python `str.strip()` (ASCII part). -/
def pyIsSpace (c : Char) : Bool :=
  c = ' ' || c = '\t' || c = '\n' || c = '\x0d' || c = '\x0b' || c = '\x0c'

/-- Python `str.strip()`: drop leading and trailing whitespace. -/
def pyStrip (s : String) : String :=
  String.mk (((s.toList.dropWhile pyIsSpace).reverse.dropWhile pyIsSpace).reverse)

/-- Python `str.lower()` (ASCII case folding suffices for this code base). -/
def pyLower (s : String) : String := s.toLower

/-! ## EXIF data model (`app/models/responses.py`, class `EXIFData`)

All fields optional, defaulting to `None`. -/

structure EXIFData where
  datetime_original : Option String := none
  device_make : Option String := none
  device_model : Option String := none
  gps_latitude : Option ℚ := none
  gps_longitude : Option ℚ := none
  software : Option String := none
  file_hash : Option String := none
  dimensions : Option String := none
  file_size : Option ℤ := none
deriving Repr, DecidableEq, Inhabited

/-- `EXIFData()`: the all-defaults record used by `_extract_exif_safe`. -/
def EXIFData.empty : EXIFData := {}

/-! ## Authenticity scorer (`evidence_validator.py`,
`EvidenceValidator.calculate_authenticity_score`) -/

/-- `calculate_authenticity_score`.  Mirrors the source:
`has_exif` is `any([...])` over five truthy checks (note: it consults
`gps_latitude` only, with Python truthiness, so latitude `0.0` counts as
absent); the GPS bonus checks `is not None` on both coordinates. -/
def calculate_authenticity_score (e : EXIFData) : ℤ :=
  let has_exif := pyTruthyStr e.datetime_original || pyTruthyStr e.device_make ||
    pyTruthyStr e.device_model || pyTruthyQ e.gps_latitude || pyTruthyStr e.software
  let score0 : ℤ := if has_exif then 40 else 0
  let score1 : ℤ := score0 + (if pyTruthyStr e.datetime_original then 30 else 0)
  let score2 : ℤ := score1 +
    (if pyTruthyStr e.device_make || pyTruthyStr e.device_model then 20 else 0)
  let score3 : ℤ := score2 +
    (if e.gps_latitude.isSome && e.gps_longitude.isSome then 10 else 0)
  min score3 100

/-- The scoring rule exactly as the specification words it (claim C1):
presence of a field means the field holds a value, `+40` fires when any of
the five signals is present (GPS meaning the latitude/longitude pair), and
the four contributions are added then clamped. -/
def specAuthenticityScore (e : EXIFData) : ℤ :=
  let anyPresent := e.datetime_original.isSome || e.device_make.isSome ||
    e.device_model.isSome || (e.gps_latitude.isSome && e.gps_longitude.isSome) ||
    e.software.isSome
  min ((if anyPresent then (40:ℤ) else 0) +
    (if e.datetime_original.isSome then 30 else 0) +
    (if e.device_make.isSome || e.device_model.isSome then 20 else 0) +
    (if e.gps_latitude.isSome && e.gps_longitude.isSome then 10 else 0)) 100

/-- The amended scoring rule (truthiness for the first three indicators,
latitude truthiness alone for the `+40` gate, null checks for the GPS
bonus), written as the closed-form sum the claim uses. -/
def amendedAuthenticityScore (e : EXIFData) : ℤ :=
  min ((if pyTruthyStr e.datetime_original || pyTruthyStr e.device_make ||
          pyTruthyStr e.device_model || pyTruthyQ e.gps_latitude ||
          pyTruthyStr e.software then (40:ℤ) else 0) +
    (if pyTruthyStr e.datetime_original then 30 else 0) +
    (if pyTruthyStr e.device_make || pyTruthyStr e.device_model then 20 else 0) +
    (if e.gps_latitude.isSome && e.gps_longitude.isSome then 10 else 0)) 100

/-! ## Trust levels (`EvidenceValidator.get_trust_level`) -/

inductive TrustLevel where
  | HIGH_TRUST | MEDIUM_TRUST | LOW_TRUST | UNTRUSTED
deriving Repr, DecidableEq, Inhabited

/-- `get_trust_level`, evaluated high-to-low. -/
def get_trust_level (authenticity_score : ℤ) : TrustLevel :=
  if authenticity_score ≥ 80 then .HIGH_TRUST
  else if authenticity_score ≥ 50 then .MEDIUM_TRUST
  else if authenticity_score ≥ 20 then .LOW_TRUST
  else .UNTRUSTED

/-! ## Substring search (models Python `in` on strings and the regex
fragments of `_parse_json_response`) -/

/-- `leadMatch needle hay`: does `needle` occur at the head of `hay`? -/
def leadMatch : List Char → List Char → Bool
  | [], _ => true
  | _ :: _, [] => false
  | a :: as, b :: bs => a = b && leadMatch as bs

/-- Index of the first occurrence of `needle` in `hay`, if any. -/
def findSub (hay needle : List Char) : Option Nat :=
  match hay with
  | [] => if leadMatch needle [] then some 0 else none
  | c :: t =>
    if leadMatch needle (c :: t) then some 0
    else (findSub t needle).map (· + 1)

/-- Python `needle in hay` for strings. -/
def strContains (hay needle : String) : Bool :=
  (findSub hay.toList needle.toList).isSome

/-! ## Rounding helpers (Python `round`) -/

/-- Python `round` to an integer: round half to even. -/
def rneInt (q : ℚ) : ℤ :=
  if q - ⌊q⌋ < 1/2 then ⌊q⌋
  else if 1/2 < q - ⌊q⌋ then ⌊q⌋ + 1
  else if ⌊q⌋ % 2 = 0 then ⌊q⌋ else ⌊q⌋ + 1

/-- Python `round(x, 2)` on the exact rational value.  (The reachable
tamper probabilities are multiples of `0.1`, where the binary64 detour of
the source is value-preserving through every downstream comparison.) -/
def pyRound2 (q : ℚ) : ℚ := (rneInt (q * 100) : ℚ) / 100

/-! ## Tamper heuristic detector (`evidence_validator.py`,
`EvidenceValidator.detect_tampering`) -/

/-- The fixed editor list `EDITING_SOFTWARE`. -/
def EDITING_SOFTWARE : List String :=
  ["photoshop", "gimp", "lightroom", "capture one", "affinity",
   "pixelmator", "snapseed", "vsco", "afterlight"]

structure TamperAnalysis where
  tamper_probability : ℚ
  indicators : List String
  conclusion : String
deriving Repr, DecidableEq, Inhabited

/-- Exceptions the extraction stages can raise. -/
inductive PyExc where
  | invalidImage (msg : String)
  | exifExtraction (msg : String)
  | other (msg : String)
deriving Repr, DecidableEq

/-- Rule 1 condition: `any([datetime_original, device_make, gps_latitude])`
is falsy — the source consults these three fields only. -/
def missingMetaCond (e : EXIFData) : Bool :=
  !(pyTruthyStr e.datetime_original || pyTruthyStr e.device_make ||
    pyTruthyQ e.gps_latitude)

/-- Rule 2 condition: a truthy software tag containing a known editor name
(case-insensitive substring). -/
def editorHit (e : EXIFData) : Bool :=
  pyTruthyStr e.software &&
    EDITING_SOFTWARE.any (fun ed => strContains (pyLower (e.software.getD "")) ed)

/-- Rule 2 contribution. -/
def editorContrib (e : EXIFData) : ℚ := if editorHit e then 4/10 else 0

/-- Rule 3 condition.  `timestampInFuture s` is the wall-clock oracle: it
holds exactly when `s`, after the source's separator rewrite, parses with
`datetime.fromisoformat` to an instant strictly after `datetime.now()`;
parse failures make it false (the rule silently does not fire). -/
def futureHit (timestampInFuture : String → Bool) (e : EXIFData) : Bool :=
  pyTruthyStr e.datetime_original &&
    timestampInFuture (e.datetime_original.getD "")

/-- Rule 3 contribution. -/
def futureContrib (timestampInFuture : String → Bool) (e : EXIFData) : ℚ :=
  if futureHit timestampInFuture e then 5/10 else 0

/-- `detect_tampering`.  The internal `extract_exif` call is passed in as
`extraction`; any exception from it is caught and mapped to the neutral
`0.5` assessment. -/
def detect_tampering (timestampInFuture : String → Bool)
    (extraction : Except PyExc EXIFData) : TamperAnalysis :=
  match extraction with
  | .error _ =>
    { tamper_probability := 1/2,
      indicators := ["Could not complete tampering analysis"],
      conclusion := "Tampering analysis inconclusive due to processing error" }
  | .ok exif =>
    let p1 : ℚ := if missingMetaCond exif then 3/10 else 0
    let ind1 : List String :=
      if missingMetaCond exif then ["Missing or stripped EXIF metadata"] else []
    let ind2 : List String :=
      if editorHit exif then
        ["Editing software detected: " ++ exif.software.getD ""] else []
    let ind3 : List String :=
      if futureHit timestampInFuture exif then
        ["Image timestamp is in the future"] else []
    let prob : ℚ :=
      min (p1 + editorContrib exif + futureContrib timestampInFuture exif) 1
    let conclusion :=
      if prob < 2/10 then "Low risk of tampering detected"
      else if prob < 5/10 then "Moderate tampering indicators found"
      else "High probability of image manipulation"
    let indicators0 := ind1 ++ ind2 ++ ind3
    let indicators :=
      if indicators0 = [] then ["No tampering indicators detected"] else indicators0
    { tamper_probability := pyRound2 prob,
      indicators := indicators,
      conclusion := conclusion }

/-! ## `validate_evidence` (`evidence_validator.py`) -/

structure AlignmentAnalysis where
  alignment_score : ℤ
  concerns : List String
  reasoning : String
deriving Repr, DecidableEq, Inhabited

structure EvidenceValidation where
  authenticity_score : ℤ
  trust_level : TrustLevel
  exif_data : EXIFData
  tamper_analysis : TamperAnalysis
  alignment_analysis : Option AlignmentAnalysis
deriving Repr, DecidableEq, Inhabited

/-- `validate_evidence` after the alignment stage is abstracted: the
initial `extract_exif` call propagates its exceptions; `detect_tampering`
re-runs extraction on the same path, modelled by the same pure outcome. -/
def validate_evidence (timestampInFuture : String → Bool)
    (extraction : Except PyExc EXIFData)
    (alignment : Option AlignmentAnalysis) : Except PyExc EvidenceValidation :=
  match extraction with
  | .error e => .error e
  | .ok exif =>
    let authenticity_score := calculate_authenticity_score exif
    let trust_level := get_trust_level authenticity_score
    let tamper := detect_tampering timestampInFuture (.ok exif)
    if 1/2 < tamper.tamper_probability then
      .ok { authenticity_score := max 0 (authenticity_score - 30),
            trust_level := get_trust_level (max 0 (authenticity_score - 30)),
            exif_data := exif, tamper_analysis := tamper,
            alignment_analysis := alignment }
    else
      .ok { authenticity_score := authenticity_score,
            trust_level := trust_level, exif_data := exif,
            tamper_analysis := tamper, alignment_analysis := alignment }

/-! ## IEEE-754 binary64 model

The final-score aggregation multiplies and adds Python floats.  A float is
an exactly-representable rational; `roundDouble` is round-to-nearest,
ties-to-even at 53 significant bits.  Every non-zero value arising in the
aggregation for inputs in `[0,100]` lies in `[0.29, 101]`, so the exponent
search may start at `-3` and stop at `9`; outside that window `roundDouble`
still rounds at a fixed fine grid, which the error lemmas accommodate. -/

/-- Exponent search: the largest `e ≥ st` with `2^e ≤ a`, found by at most
`n` upward steps. -/
def findExpGo (a : ℚ) (st : ℤ) : ℕ → ℤ
  | 0 => st
  | n + 1 => if (2:ℚ)^(st+1) ≤ a then findExpGo a (st+1) n else st

/-- Binade exponent of `a` for the range arising in the score pipeline. -/
def findExp (a : ℚ) : ℤ := findExpGo a (-3) 12

/-- Round a rational to the nearest binary64 value (53 significant bits,
ties to even). -/
def roundDouble (q : ℚ) : ℚ :=
  if q = 0 then 0
  else if 0 < q then
    ((rneInt (q * 2 ^ ((52:ℤ) - findExp q)) : ℚ)) / 2 ^ ((52:ℤ) - findExp q)
  else
    -(((rneInt (-q * 2 ^ ((52:ℤ) - findExp (-q))) : ℚ)) / 2 ^ ((52:ℤ) - findExp (-q)))

/-- The double written `0.3` in the source. -/
def pyFloat03 : ℚ := roundDouble (3/10)

/-- The double written `0.4` in the source. -/
def pyFloat04 : ℚ := roundDouble (2/5)

/-! ## Final score aggregator (`evidence_pipeline.py`,
`EvidencePipeline._calculate_final_score`) -/

/-- The float expression `0.3*a + 0.3*b + 0.4*c` exactly as Python
evaluates it: left-associated, every multiplication and addition rounded
to binary64. -/
def floatWeightedSum (a b c : ℤ) : ℚ :=
  roundDouble (roundDouble (roundDouble (pyFloat03 * a) + roundDouble (pyFloat03 * b)) +
    roundDouble (pyFloat04 * c))

/-- `_calculate_final_score`: `max(0, min(100, int(round(score))))`;
Python `round` on a float rounds its exact value half-to-even. -/
def calculate_final_score (a b c : ℤ) : ℤ :=
  max 0 (min 100 (rneInt (floatWeightedSum a b c)))

/-- The formula exactly as the specification words it (claim C2), with
`round` read as Python `round` (half to even) over the exact weighted sum. -/
def specFinalScoreEven (a b c : ℤ) : ℤ :=
  max 0 (min 100 (rneInt (((3*a + 3*b + 4*c : ℤ) : ℚ) / 10)))

/-- The same formula with `round` read as round-half-up. -/
def specFinalScoreUp (a b c : ℤ) : ℤ :=
  max 0 (min 100 ⌊((3*a + 3*b + 4*c : ℤ) : ℚ) / 10 + 1/2⌋)

/-! ## Model client (`llm_service.py`, `OllamaLLMService`) -/

/-- Outcome of one `requests.post` attempt inside `query`'s retry loop. -/
inductive AttemptOutcome where
  | success (responseText : String)
  | timeout
  | connectionError (msg : String)
  | httpError (status : ℤ)
  | unexpected (msg : String)
deriving Repr, DecidableEq, Inhabited

/-- The two exception classes `query` can raise. -/
inductive LLMError where
  | timeoutErr (timeoutSeconds : ℤ)
  | connErr (msg : String)
deriving Repr, DecidableEq, Inhabited

/-- `str(e)` of an `LLMError` (the `message` attribute). -/
def errMessage : LLMError → String
  | .timeoutErr _ => "LLM query timed out"
  | .connErr m => m

/-- Is the error the distinguished timeout error? -/
def isTimeoutErr : LLMError → Bool
  | .timeoutErr _ => true
  | .connErr _ => false

/-! ### JSON repair (`OllamaLLMService._parse_json_response`)

`json.loads` is the Python standard library; it enters the model as the
parameter `loads : String → Option PyVal` (`none` = `JSONDecodeError`).
The three regex patterns of the source are implemented directly. -/

/-- `str.strip()` on a char list. -/
def stripChars (cs : List Char) : List Char :=
  ((cs.dropWhile pyIsSpace).reverse.dropWhile pyIsSpace).reverse

/-- All captures of `` r"<tag>\s*([\s\S]*?)\s*```" `` scanning left to
right without overlap, as `re.findall` produces them: after each `tag` the
lazy group ends at the next closing fence, and the `\s*` anchors trim the
capture. -/
def fenceMatchesGo (fuel : ℕ) (tag s : List Char) : List (List Char) :=
  match fuel with
  | 0 => []
  | fuel + 1 =>
    match findSub s tag with
    | none => []
    | some i =>
      let rest := s.drop (i + tag.length)
      match findSub rest ("```".toList) with
      | none => []
      | some k =>
        stripChars (rest.take k) :: fenceMatchesGo fuel tag (rest.drop (k + 3))

/-- `re.findall` for the two fenced-block patterns. -/
def fenceMatches (tag : String) (s : String) : List String :=
  (fenceMatchesGo (s.length + 1) tag.toList s.toList).map List.asString

/-- The greedy pattern `r"\{[\s\S]*\}"`: the substring from the first
opening brace to the last closing brace after it, if both exist. -/
def braceCandidate (s : List Char) : Option (List Char) :=
  match findSub s ['\x7b'] with
  | none => none
  | some i =>
    match findSub s.reverse ['\x7d'] with
    | none => none
    | some revj =>
      let j := s.length - 1 - revj
      if i < j then some ((s.drop i).take (j - i + 1)) else none

/-- Try `loads` on each candidate in order, returning the first success
(the source's inner `for match ... try/except continue` loops). -/
def firstParse (loads : String → Option PyVal) : List String → Option PyVal
  | [] => none
  | c :: cs =>
    match loads c with
    | some v => some v
    | none => firstParse loads cs

/-- The sentinel mapping returned when every parse attempt fails. -/
def parseFailSentinel (text : String) : PyVal :=
  .dictv [("parse_error", .boolv true), ("raw_response", .strv text),
          ("warning", .strv "Could not parse JSON from LLM response")]

/-- `_parse_json_response`. -/
def parse_json_response (loads : String → Option PyVal)
    (response_text : String) : PyVal :=
  let text := pyStrip response_text
  match loads text with
  | some v => v
  | none =>
    match firstParse loads (fenceMatches "```json" text) with
    | some v => v
    | none =>
      match firstParse loads (fenceMatches "```" text) with
      | some v => v
      | none =>
        match (braceCandidate text.toList).map List.asString with
        | some cand =>
          match loads cand with
          | some v => v
          | none => parseFailSentinel text
        | none => parseFailSentinel text

/-- A sample JSON object text and its parsed mapping, used to instantiate
the abstract `loads` parameter on concrete inputs. -/
def sampleJson : String := "\x7b\"a\": 1\x7d"

/-- The mapping `json.loads` produces for `sampleJson`. -/
def sampleObj : PyVal := .dictv [("a", .intv 1)]

/-- A concrete `json.loads` fragment: parses exactly `sampleJson`, fails on
everything else — consistent with the real parser on every string the
concrete theorems touch. -/
def loadsDemo : String → Option PyVal :=
  fun s => if s = sampleJson then some sampleObj else none

/-- `sampleJson` inside a labelled fenced code block. -/
def sampleFenced : String := "```json\n" ++ sampleJson ++ "\n```"

/-- `sampleJson` embedded as a brace-delimited substring. -/
def sampleEmbedded : String := "verdict: " ++ sampleJson

/-- A reply containing no parseable JSON at all. -/
def sampleNoise : String := "no json here"

/-! ### The retry loop (`OllamaLLMService.query`) -/

/-- The body of `query`'s `for attempt in range(self.max_retries)` loop,
threading `last_error`.  A non-200 status raises `LLMConnectionError`
inside the `try`, and the `except LLMConnectionError: raise` arm
propagates it immediately, consuming no further retries. -/
def queryGo (loads : String → Option PyVal) (expect_json : Bool)
    (request_timeout : ℤ) :
    List AttemptOutcome → Option LLMError → Except LLMError PyVal
  | [], last_error =>
    match last_error with
    | some e => .error e
    | none => .error (.connErr "Failed to complete LLM query after all retries")
  | a :: rest, last_error =>
    match a with
    | .success t =>
      .ok (if expect_json then parse_json_response loads t
           else .dictv [("response", .strv t)])
    | .timeout =>
      queryGo loads expect_json request_timeout rest
        (some (.timeoutErr request_timeout))
    | .connectionError _ =>
      queryGo loads expect_json request_timeout rest
        (some (.connErr "Failed to connect to Ollama"))
    | .httpError status =>
      .error (.connErr ("Ollama returned status " ++ toString status))
    | .unexpected m =>
      queryGo loads expect_json request_timeout rest
        (some (.connErr ("Unexpected error: " ++ m)))

/-- `query`, driven by the list of per-attempt outcomes (one entry per
loop iteration the network would supply; its length is `max_retries`). -/
def query (loads : String → Option PyVal) (expect_json : Bool)
    (request_timeout : ℤ) (attempts : List AttemptOutcome) :
    Except LLMError PyVal :=
  queryGo loads expect_json request_timeout attempts none

/-- An attempt that fails without short-circuiting the loop. -/
def isRetriedFailure : AttemptOutcome → Bool
  | .timeout => true
  | .connectionError _ => true
  | .unexpected _ => true
  | _ => false

/-! ## Scene analysis model (`app/models/responses.py` +
`EvidencePipeline._build_vision_analysis`) -/

inductive Cleanliness where
  | CLEAN | AVERAGE | DIRTY | UNSANITARY
deriving Repr, DecidableEq, Inhabited

inductive LocationType where
  | INDOOR | OUTDOOR | UNCLEAR
deriving Repr, DecidableEq, Inhabited

/-- `CleanlinessLevelEnum(raw)`; `none` = `ValueError`. -/
def cleanlinessOfString (s : String) : Option Cleanliness :=
  if s = "clean" then some .CLEAN
  else if s = "average" then some .AVERAGE
  else if s = "dirty" then some .DIRTY
  else if s = "unsanitary" then some .UNSANITARY
  else none

/-- `LocationTypeEnum(raw)`; `none` = `ValueError`. -/
def locationOfString (s : String) : Option LocationType :=
  if s = "indoor" then some .INDOOR
  else if s = "outdoor" then some .OUTDOOR
  else if s = "unclear" then some .UNCLEAR
  else none

structure VisionAnalysis where
  scene_summary : String
  detected_objects : List String
  damage_detected : List String
  safety_hazards : List String
  cleanliness_level : Cleanliness
  indoor_outdoor : LocationType
  confidence : ℤ
deriving Repr, DecidableEq, Inhabited

/-- `value.lower()`: raises `AttributeError` on a non-string. -/
def pyLowerAttr (v : PyVal) : Except String String :=
  match v with
  | .strv s => .ok (pyLower s)
  | _ => .error "AttributeError: object has no attribute lower"

/-- Python `int(str)`: optional surrounding whitespace, optional sign,
nonempty digit run. -/
def digitsVal (cs : List Char) : Option ℕ :=
  if cs.isEmpty then none
  else
    cs.foldl (fun acc c =>
      match acc with
      | none => none
      | some v => if c.isDigit then some (v * 10 + (c.toNat - 48)) else none)
      (some 0)

/-- Python `int(s)` for a string, `none` = `ValueError`. -/
def pyIntOfString (s : String) : Option ℤ :=
  match (pyStrip s).toList with
  | '+' :: rest => (digitsVal rest).map (fun n => (n : ℤ))
  | '-' :: rest => (digitsVal rest).map (fun n => -(n : ℤ))
  | rest => (digitsVal rest).map (fun n => (n : ℤ))

/-- Python `int(float)`: truncation toward zero. -/
def ratTrunc (q : ℚ) : ℤ := q.num / (q.den : ℤ)

/-- Pydantic v2 validation of a `str` field. -/
def pydStr (v : PyVal) : Except String String :=
  match v with
  | .strv s => .ok s
  | _ => .error "ValidationError: input should be a valid string"

/-- Pydantic v2 validation of a `list[str]` field. -/
def pydStrList (v : PyVal) : Except String (List String) :=
  match v with
  | .listv items => items.mapM pydStr
  | _ => .error "ValidationError: input should be a valid list"

/-- The `confidence` normalization of `_build_vision_analysis`:
`isinstance(·, int)` admits ints and bools unconverted; otherwise
`int(value)` with `ValueError`/`TypeError` falling back to 50; then
`max(0, min(100, ·))`.  A `True` survives `min`/`max` as a bool (each
returns the strictly greater/smaller argument, and otherwise its first
argument `100`/`0`), and pydantic v2 rejects a bool for an `int` field;
a `False` loses to the first argument of `max(0, ·)` and becomes `0`. -/
def processConfidence (v : PyVal) : Except String ℤ :=
  match v with
  | .intv n => .ok (max 0 (min 100 n))
  | .boolv b =>
    if b then .error "ValidationError: bool is not a valid integer" else .ok 0
  | .floatv q => .ok (max 0 (min 100 (ratTrunc q)))
  | .strv s => .ok (max 0 (min 100 ((pyIntOfString s).getD 50)))
  | _ => .ok 50

/-- `_build_vision_analysis`.  `.error` models an exception escaping the
method (there is no `try` around the `.lower()` calls or the pydantic
construction). -/
def build_vision_analysis (llava_result : List (String × PyVal)) :
    Except String VisionAnalysis := do
  let clRaw ← pyLowerAttr (dictGet llava_result "cleanliness_level" (.strv "average"))
  let cleanliness := (cleanlinessOfString clRaw).getD .AVERAGE
  let locRaw ← pyLowerAttr (dictGet llava_result "indoor_outdoor" (.strv "unclear"))
  let location := (locationOfString locRaw).getD .UNCLEAR
  let confidence ← processConfidence (dictGet llava_result "confidence" (.intv 50))
  let scene ← pydStr (dictGet llava_result "scene_summary" (.strv "Unable to analyze image"))
  let objs ← pydStrList (dictGet llava_result "detected_objects" (.listv []))
  let dmg ← pydStrList (dictGet llava_result "damage_detected" (.listv []))
  let hz ← pydStrList (dictGet llava_result "safety_hazards" (.listv []))
  pure { scene_summary := scene, detected_objects := objs, damage_detected := dmg,
         safety_hazards := hz, cleanliness_level := cleanliness,
         indoor_outdoor := location, confidence := confidence }

/-- A concrete vision-model reply exercising the degradation paths: an
unknown cleanliness word, an unknown location word, an unparseable
confidence, one well-typed list, and the other fields missing. -/
def visionReplySample : List (String × PyVal) :=
  [("cleanliness_level", .strv "Immaculate"),
   ("indoor_outdoor", .strv "OUTSIDE"),
   ("confidence", .strv "high"),
   ("detected_objects", .listv [.strv "sink"])]

/-! ## Multimodal verdict (`EvidencePipeline._build_multimodal_verdict`,
`EvidencePipeline._perform_multimodal_reasoning`) -/

structure MultimodalVerdict where
  image_supports_claim : Bool
  consistency_score : ℤ
  evidence_strength : ℤ
  detected_inconsistencies : List String
  possible_fraud_signals : List String
  reasoning : String
deriving Repr, DecidableEq, Inhabited

/-- Boolean coercion of `image_supports_claim`:
`str(value).lower() in ("true", "yes", "1")` for non-bools.  Only strings
and the int `1` can produce one of those three words; `str()` of `None`,
floats (always containing a dot), lists and dicts never does. -/
def coerceSupports (v : PyVal) : Bool :=
  match v with
  | .boolv b => b
  | .strv s => pyLower s = "true" || pyLower s = "yes" || pyLower s = "1"
  | .intv n => n = 1
  | _ => false

/-- The nested `parse_score` helper. -/
def parse_score (v : PyVal) : ℤ :=
  match v with
  | .intv n => max 0 (min 100 n)
  | .boolv b => max 0 (min 100 (if b then 1 else 0))
  | .floatv q => max 0 (min 100 (ratTrunc q))
  | .strv s =>
    match pyIntOfString s with
    | some n => max 0 (min 100 n)
    | none => 50
  | _ => 50

/-- `_build_multimodal_verdict`; `.error` models an exception escaping
(`.get` on a non-dict, or pydantic rejecting a list/str field). -/
def build_multimodal_verdict (llm_result : PyVal) :
    Except String MultimodalVerdict :=
  match llm_result with
  | .dictv entries => do
    let supports := coerceSupports (dictGet entries "image_supports_claim" (.boolv false))
    let consistency := parse_score (dictGet entries "consistency_score" (.intv 50))
    let strength := parse_score (dictGet entries "evidence_strength" (.intv 50))
    let inconsistencies ← pydStrList (dictGet entries "detected_inconsistencies" (.listv []))
    let fraud ← pydStrList (dictGet entries "possible_fraud_signals" (.listv []))
    let reasoning ← pydStr (dictGet entries "reasoning" (.strv "No reasoning provided"))
    pure { image_supports_claim := supports, consistency_score := consistency,
           evidence_strength := strength, detected_inconsistencies := inconsistencies,
           possible_fraud_signals := fraud, reasoning := reasoning }
  | _ => .error "AttributeError: object has no attribute get"

/-- The neutral verdict built in the `except` arm of
`_perform_multimodal_reasoning`, with `str(e)[:100]` in the reasoning. -/
def neutralVerdict (msg : String) : MultimodalVerdict :=
  { image_supports_claim := false, consistency_score := 50, evidence_strength := 50,
    detected_inconsistencies := ["Unable to perform full analysis"],
    possible_fraud_signals := [],
    reasoning := "Analysis incomplete: " ++ (msg.take 100) }

/-- `_perform_multimodal_reasoning` after the prompt build: the `query`
call and the verdict build both sit inside the `try`, and any exception
degrades to the neutral verdict. -/
def perform_multimodal_reasoning (queryResult : Except LLMError PyVal) :
    MultimodalVerdict :=
  match queryResult with
  | .error e => neutralVerdict (errMessage e)
  | .ok r =>
    match build_multimodal_verdict r with
    | .ok v => v
    | .error msg => neutralVerdict msg

/-! ## Pipeline orchestrator (`EvidencePipeline.analyze_evidence`) -/

structure ImageEvidenceAnalysis where
  exif_analysis : EXIFData
  vision_analysis : VisionAnalysis
  multimodal_verdict : MultimodalVerdict
  final_evidence_score : ℤ
  trust_level : TrustLevel
deriving Repr, DecidableEq, Inhabited

/-- Exceptions observable at the pipeline boundary. -/
inductive PipelineExc where
  | invalidImage (msg : String)
  | analysisError (msg : String)
deriving Repr, DecidableEq, Inhabited

/-- The `except InvalidImageError: raise / except Exception: raise
AnalysisError(...)` routing of `analyze_evidence`. -/
def routePipelineExc (e : PyExc) : PipelineExc :=
  match e with
  | .invalidImage m => .invalidImage m
  | .exifExtraction m => .analysisError ("Evidence analysis failed: " ++ m)
  | .other m => .analysisError ("Evidence analysis failed: " ++ m)

/-- `_extract_exif_safe`: catches every exception from `extract_exif` and
substitutes the empty record. -/
def extract_exif_safe (extraction : Except PyExc EXIFData) : EXIFData :=
  match extraction with
  | .ok e => e
  | .error _ => EXIFData.empty

/-- `analyze_evidence`, driven by the outcome of each effectful stage:
`download` (`vision_service.download_image`), `extract`
(`extract_exif` on the downloaded path), `visionRaw`
(`vision_service.analyze_image`), and `llmQuery` (the Mistral call of
`_perform_multimodal_reasoning`).  Cleanup always runs and does not
change the returned value, so it is not modelled. -/
def analyze_evidence (download : Except PyExc String)
    (extract : String → Except PyExc EXIFData)
    (visionRaw : String → Except PyExc (List (String × PyVal)))
    (llmQuery : Except LLMError PyVal) :
    Except PipelineExc ImageEvidenceAnalysis :=
  match download with
  | .error e => .error (routePipelineExc e)
  | .ok temp_path =>
    let exif_data := extract_exif_safe (extract temp_path)
    let exif_authenticity := calculate_authenticity_score exif_data
    match visionRaw temp_path with
    | .error e => .error (routePipelineExc e)
    | .ok llava_result =>
      match build_vision_analysis llava_result with
      | .error msg => .error (.analysisError ("Evidence analysis failed: " ++ msg))
      | .ok vision_analysis =>
        let multimodal_verdict := perform_multimodal_reasoning llmQuery
        let final_score := calculate_final_score exif_authenticity
          vision_analysis.confidence multimodal_verdict.consistency_score
        let trust_level := get_trust_level final_score
        .ok { exif_analysis := exif_data, vision_analysis := vision_analysis,
              multimodal_verdict := multimodal_verdict,
              final_evidence_score := final_score, trust_level := trust_level }

/-! ## Claim C1 -/

/-- C1 (counterexample): the claimed presence-based formula disagrees with
`calculate_authenticity_score`.  A record whose only metadata is the GPS
pair `(0.0, 0.0)` (a legitimate coordinate on the equator and prime
meridian) scores `10` in the code — the `+40` "any signal present" gate
tests Python truthiness of the latitude, and `0.0` is falsy — while the
claimed formula gives `40 + 10 = 50`.  Moreover the score is not a function
of the five presence conditions: the records with GPS `(0.0, 0.0)` and GPS
`(1.0, 1.0)` have identical presence conditions yet score `10` and `50`. -/
theorem authenticity_score_claim_false :
    calculate_authenticity_score { gps_latitude := some 0, gps_longitude := some 0 } = 10 ∧
    specAuthenticityScore { gps_latitude := some 0, gps_longitude := some 0 } = 50 ∧
    calculate_authenticity_score { gps_latitude := some 1, gps_longitude := some 1 } = 50 := by
  refine ⟨?_, ?_, ?_⟩ <;> rfl

/-- C1 (amended): the authenticity score equals
`min (40·[any of the five indicators truthy, GPS gauged by latitude
truthiness alone] + 30·[timestamp truthy] + 20·[make or model truthy] +
10·[both GPS coordinates non-null]) 100`; it always lies in `[0,100]`;
a record with only a capture timestamp scores 70, one with all five
signals scores 100, and the empty record scores 0. -/
theorem authenticity_score_amended :
    (∀ e : EXIFData, calculate_authenticity_score e = amendedAuthenticityScore e ∧
      0 ≤ calculate_authenticity_score e ∧ calculate_authenticity_score e ≤ 100) ∧
    calculate_authenticity_score { datetime_original := some "2024:01:15 14:30:00" } = 70 ∧
    calculate_authenticity_score
      { datetime_original := some "2024:01:15 14:30:00", device_make := some "Apple",
        device_model := some "iPhone 13", gps_latitude := some (377749/10000),
        gps_longitude := some (-1224194/10000), software := some "16.2" } = 100 ∧
    calculate_authenticity_score EXIFData.empty = 0 := by
  refine ⟨fun e => ?_, by rfl, by rfl, by rfl⟩
  unfold calculate_authenticity_score amendedAuthenticityScore
  split_ifs <;> simp_all

/-! ## Claim C7 -/

/-- The editor indicator can never collide with the missing-metadata
indicator (their first characters differ). -/
theorem editing_indicator_ne (sw : String) :
    ("Editing software detected: " ++ sw) ≠ "Missing or stripped EXIF metadata" := by
  intro h
  have h2 : ("Editing software detected: " ++ sw).data.head? =
      ("Missing or stripped EXIF metadata" : String).data.head? := by rw [h]
  have hL : ("Editing software detected: " ++ sw).data.head? = some 'E' := rfl
  have hR : ("Missing or stripped EXIF metadata" : String).data.head? = some 'M' := rfl
  rw [hL, hR] at h2
  exact absurd h2 (by decide)

/-- C7 (counterexample): the claim says the `+0.3` rule fires exactly when
none of the five §4.2 signals is present.  The code only consults
`datetime_original`, `device_make` and `gps_latitude`: a record whose only
metadata is `device_model = "iPhone 13"` has a signal present, yet the rule
fires (`probability = 0.3`, indicator reported). -/
theorem tamper_missing_rule_claim_false :
    "Missing or stripped EXIF metadata" ∈
      (detect_tampering (fun _ => false)
        (.ok { device_model := some "iPhone 13" })).indicators ∧
    (detect_tampering (fun _ => false)
      (.ok { device_model := some "iPhone 13" })).tamper_probability = 3/10 := by
  constructor
  · simp [detect_tampering, missingMetaCond, editorHit, futureHit, pyTruthyStr,
      pyTruthyQ]
  · simp [detect_tampering, missingMetaCond, editorHit, futureHit, editorContrib,
      futureContrib, pyTruthyStr, pyTruthyQ]
    norm_num [pyRound2, rneInt, min_def]

/-- C7 (amended): for every metadata record, the missing-metadata rule fires
(its indicator appears, with weight `0.3` entering the additive total)
exactly when none of the capture timestamp, the device make, or the GPS
latitude is truthily present — the device model and software tag are not
consulted — and contributes nothing otherwise. -/
theorem tamper_missing_rule_amended (f : String → Bool) (e : EXIFData) :
    ("Missing or stripped EXIF metadata" ∈
        (detect_tampering f (.ok e)).indicators ↔ missingMetaCond e = true) ∧
    (detect_tampering f (.ok e)).tamper_probability =
      pyRound2 (min ((if missingMetaCond e then (3:ℚ)/10 else 0) +
        editorContrib e + futureContrib f e) 1) := by
  have hne := (editing_indicator_ne (e.software.getD "")).symm
  have hne2 : ("Missing or stripped EXIF metadata" : String) ≠
      "Image timestamp is in the future" := by decide
  have hne3 : ("Missing or stripped EXIF metadata" : String) ≠
      "No tampering indicators detected" := by decide
  cases hm : missingMetaCond e <;> cases hh : editorHit e <;>
    cases hf : futureHit f e <;>
    simp [detect_tampering, hm, hh, hf, hne, hne2, hne3]

/-! ## Claim C9 -/

/-- C9 (confirmed): every tamper assessment has probability in `[0,1]` and
a non-empty indicator list; when no rule fired, the single sentinel
indicator is substituted. -/
theorem tamper_assessment_invariants (f : String → Bool)
    (extraction : Except PyExc EXIFData) :
    0 ≤ (detect_tampering f extraction).tamper_probability ∧
    (detect_tampering f extraction).tamper_probability ≤ 1 ∧
    (detect_tampering f extraction).indicators ≠ [] ∧
    (∀ e : EXIFData, extraction = .ok e → missingMetaCond e = false →
      editorHit e = false → futureHit f e = false →
      (detect_tampering f extraction).indicators =
        ["No tampering indicators detected"]) := by
  match extraction with
  | .error exc =>
    refine ⟨by norm_num [detect_tampering], by norm_num [detect_tampering],
      by simp [detect_tampering], ?_⟩
    intro e he
    exact absurd he (by simp)
  | .ok e =>
    refine ⟨?_, ?_, ?_, ?_⟩
    · cases hm : missingMetaCond e <;> cases hh : editorHit e <;>
        cases hf : futureHit f e <;>
        simp [detect_tampering, editorContrib, futureContrib, hm, hh, hf] <;>
        norm_num [pyRound2, rneInt, min_def]
    · cases hm : missingMetaCond e <;> cases hh : editorHit e <;>
        cases hf : futureHit f e <;>
        simp [detect_tampering, editorContrib, futureContrib, hm, hh, hf] <;>
        norm_num [pyRound2, rneInt, min_def]
    · cases hm : missingMetaCond e <;> cases hh : editorHit e <;>
        cases hf : futureHit f e <;>
        simp [detect_tampering, editorContrib, futureContrib, hm, hh, hf]
    · intro e' he' h1 h2 h3
      have he2 : e' = e := by injection he' with h; exact h.symm
      subst he2
      simp [detect_tampering, h1, h2, h3]

/-- C9 witness: the sentinel clause at a concrete record (a plain
phone photo with timestamp, device and GPS, no editing software, taken in
the past). -/
theorem tamper_assessment_invariants_witness :
    (detect_tampering (fun _ => false)
      (.ok { datetime_original := some "2024:01:15 14:30:00",
             device_make := some "Apple" })).indicators =
      ["No tampering indicators detected"] :=
  (tamper_assessment_invariants (fun _ => false)
    (.ok { datetime_original := some "2024:01:15 14:30:00",
           device_make := some "Apple" })).2.2.2
    _ rfl (by rfl) (by rfl) (by rfl)

/-! ## Claim C10 -/

/-- C10 (confirmed): `validate_evidence` reports the §4.2 score reduced by
30 and floored at 0 — with the trust level recomputed from the reduced
score — exactly when the tamper probability exceeds `0.5`, and the
unmodified pure score (and its trust level) otherwise. -/
theorem validate_evidence_tamper_adjustment (f : String → Bool) (e : EXIFData)
    (al : Option AlignmentAnalysis) :
    validate_evidence f (.ok e) al =
      (let t := detect_tampering f (.ok e)
       let base := calculate_authenticity_score e
       let adj := if 1/2 < t.tamper_probability then max 0 (base - 30) else base
       .ok { authenticity_score := adj, trust_level := get_trust_level adj,
             exif_data := e, tamper_analysis := t, alignment_analysis := al }) := by
  simp only [validate_evidence]
  split <;> rfl

/-! ## Claim C5 -/

/-- Exhausting the retry loop over failing attempts always raises, and the
kind of the raised error is decided by the *last* failure recorded in
`last_error` (or by the seed when the list is empty). -/
theorem queryGo_exhaust (loads : String → Option PyVal) (ej : Bool) (rt : ℤ)
    (attempts : List AttemptOutcome)
    (hfail : ∀ x ∈ attempts, isRetriedFailure x = true) :
    ∀ le : Option LLMError, attempts ≠ [] →
      ∃ err, queryGo loads ej rt attempts le = .error err ∧
        (isTimeoutErr err = true ↔ attempts.getLast? = some .timeout) := by
  induction attempts with
  | nil => intro le h; exact absurd rfl h
  | cons a rest ih =>
    intro le _
    have ha : isRetriedFailure a = true := hfail a (by simp)
    have hrest : ∀ x ∈ rest, isRetriedFailure x = true :=
      fun x hx => hfail x (by simp [hx])
    cases rest with
    | nil =>
      cases a with
      | timeout =>
        exact ⟨.timeoutErr rt, rfl, by simp [isTimeoutErr]⟩
      | connectionError m =>
        exact ⟨.connErr "Failed to connect to Ollama", rfl, by simp [isTimeoutErr]⟩
      | unexpected m =>
        exact ⟨.connErr ("Unexpected error: " ++ m), rfl, by simp [isTimeoutErr]⟩
      | success t => simp [isRetriedFailure] at ha
      | httpError s => simp [isRetriedFailure] at ha
    | cons b rest2 =>
      cases a with
      | timeout =>
        obtain ⟨err, he, hiff⟩ :=
          ih hrest (some (.timeoutErr rt)) (by simp)
        exact ⟨err, he, by simpa using hiff⟩
      | connectionError m =>
        obtain ⟨err, he, hiff⟩ :=
          ih hrest (some (.connErr "Failed to connect to Ollama")) (by simp)
        exact ⟨err, he, by simpa using hiff⟩
      | unexpected m =>
        obtain ⟨err, he, hiff⟩ :=
          ih hrest (some (.connErr ("Unexpected error: " ++ m))) (by simp)
        exact ⟨err, he, by simpa using hiff⟩
      | success t => simp [isRetriedFailure] at ha
      | httpError s => simp [isRetriedFailure] at ha

/-- C5 (counterexample): with two retries whose failures are a connection
error then a timeout, the code raises the timeout error even though not
every failed attempt was a timeout — `last_error` only remembers the last
failure. -/
theorem query_error_kind_claim_false :
    query (fun _ => none) true 60
      [.connectionError "refused", .timeout] = .error (.timeoutErr 60) ∧
    AttemptOutcome.connectionError "refused" ∈
      ([.connectionError "refused", .timeout] : List AttemptOutcome) ∧
    AttemptOutcome.connectionError "refused" ≠ AttemptOutcome.timeout := by
  exact ⟨rfl, by simp, by simp⟩

/-- C5 (amended): when every attempt fails with a retried failure
(timeout, connection error, or unexpected error) and at least one attempt
ran, `query` raises; the raised error is the distinguished timeout error
if and only if the *last* failed attempt was a timeout. -/
theorem query_error_kind_amended (loads : String → Option PyVal)
    (ej : Bool) (rt : ℤ) (attempts : List AttemptOutcome)
    (hfail : ∀ x ∈ attempts, isRetriedFailure x = true)
    (hne : attempts ≠ []) :
    ∃ err, query loads ej rt attempts = .error err ∧
      (isTimeoutErr err = true ↔ attempts.getLast? = some .timeout) :=
  queryGo_exhaust loads ej rt attempts hfail none hne

/-- C5 witness: the amended statement applied at a concrete failing run. -/
theorem query_error_kind_amended_witness :
    (∀ x ∈ ([.connectionError "refused", .timeout] : List AttemptOutcome),
      isRetriedFailure x = true) ∧
    ∃ err, query (fun _ => none) true 60
        [.connectionError "refused", .timeout] = .error err ∧
      (isTimeoutErr err = true ↔
        ([.connectionError "refused", .timeout] :
          List AttemptOutcome).getLast? = some .timeout) :=
  ⟨by decide, query_error_kind_amended (fun _ => none) true 60
    [.connectionError "refused", .timeout] (by decide) (by simp)⟩

/-! ## Claim C4 -/

/-- C4 (confirmed): any model-client exception during multimodal reasoning
is not propagated — the verdict builder returns the neutral verdict
(`image_supports_claim = false`, both scores 50, exactly one inconsistency
noting the failure), and the pipeline still completes with an `.ok`
analysis carrying that verdict. -/
theorem multimodal_degraded_verdict (e : LLMError) (path : String)
    (extract : String → Except PyExc EXIFData) :
    perform_multimodal_reasoning (.error e) = neutralVerdict (errMessage e) ∧
    (perform_multimodal_reasoning (.error e)).image_supports_claim = false ∧
    (perform_multimodal_reasoning (.error e)).consistency_score = 50 ∧
    (perform_multimodal_reasoning (.error e)).evidence_strength = 50 ∧
    (perform_multimodal_reasoning (.error e)).detected_inconsistencies =
      ["Unable to perform full analysis"] ∧
    ∃ analysis, analyze_evidence (.ok path) extract (fun _ => .ok [])
        (.error e) = .ok analysis ∧
      analysis.multimodal_verdict = neutralVerdict (errMessage e) := by
  exact ⟨rfl, rfl, rfl, rfl, rfl, ⟨_, rfl, rfl⟩⟩

/-! ## Claim C6 -/

/-- C6 (counterexample): an `InvalidImageError` raised during the
ExtractMetadata stage does *not* propagate out of `analyze_evidence` —
`_extract_exif_safe` swallows every exception and substitutes an empty
metadata record, so the pipeline completes with an `.ok` analysis. -/
theorem pipeline_extract_invalid_claim_false :
    (analyze_evidence (.ok "/tmp/evidence.jpg")
      (fun _ => .error (.invalidImage "File is not a valid image"))
      (fun _ => .ok []) (.ok (.dictv []))).isOk = true ∧
    analyze_evidence (.ok "/tmp/evidence.jpg")
      (fun _ => .error (.invalidImage "File is not a valid image"))
      (fun _ => .ok []) (.ok (.dictv [])) ≠
      .error (.invalidImage "File is not a valid image") := by
  have hok : (analyze_evidence (.ok "/tmp/evidence.jpg")
      (fun _ => .error (.invalidImage "File is not a valid image"))
      (fun _ => .ok []) (.ok (.dictv []))).isOk = true := rfl
  refine ⟨hok, fun h => ?_⟩
  rw [h] at hok
  simp [Except.isOk, Except.toBool] at hok

/-- C6 (amended): an `InvalidImageError` raised during the Acquire stage
propagates unchanged; an exception during the ExtractMetadata stage —
`InvalidImageError` included — is swallowed by `_extract_exif_safe`, which
substitutes the empty metadata record, and the run is indistinguishable
from one whose extraction returned the empty record. -/
theorem pipeline_invalid_image_routing_amended (m : String) (path : String)
    (extract : String → Except PyExc EXIFData)
    (visionRaw : String → Except PyExc (List (String × PyVal)))
    (llmQuery : Except LLMError PyVal) (excE : PyExc) :
    analyze_evidence (.error (.invalidImage m)) extract visionRaw llmQuery =
      .error (.invalidImage m) ∧
    analyze_evidence (.ok path) (fun _ => .error excE) visionRaw llmQuery =
      analyze_evidence (.ok path) (fun _ => .ok EXIFData.empty) visionRaw
        llmQuery := by
  exact ⟨rfl, rfl⟩

/-! ## Claim C8 -/

/-- `dictGet` is `dictFind` with a default. -/
theorem dictGet_eq (m : List (String × PyVal)) (k : String) (d : PyVal) :
    dictGet m k d = (dictFind m k).getD d := by
  unfold dictGet dictFind
  cases m.lookup k <;> rfl

/-- Pydantic accepts a list of strings as a `list[str]` field. -/
theorem pydStrList_map (ss : List String) :
    pydStrList (.listv (ss.map PyVal.strv)) = .ok ss := by
  induction ss with
  | nil => rfl
  | cons s rest ih =>
    have ih' : List.mapM pydStr (rest.map PyVal.strv) = .ok rest := ih
    show List.mapM pydStr ((s :: rest).map PyVal.strv) = .ok (s :: rest)
    rw [List.map_cons, List.mapM_cons, ih']
    rfl

/-- Confidence normalization succeeds on every non-`True` value, yields a
clamped result, and defaults to 50 on an unparseable string. -/
theorem processConfidence_ok (v : PyVal) (h : v ≠ .boolv true) :
    ∃ n, processConfidence v = .ok n ∧ 0 ≤ n ∧ n ≤ 100 ∧
      (∀ s, v = .strv s → pyIntOfString s = none → n = 50) ∧
      (v = .intv 50 → n = 50) := by
  have h0 : ∀ x : ℤ, 0 ≤ max 0 (min 100 x) := fun x => le_max_left 0 _
  have h100 : ∀ x : ℤ, max 0 (min 100 x) ≤ 100 :=
    fun x => max_le (by norm_num) (min_le_left _ _)
  have h50 : max 0 (min 100 (50:ℤ)) = 50 := by norm_num [min_def, max_def]
  cases v with
  | intv n =>
    refine ⟨max 0 (min 100 n), rfl, h0 n, h100 n, ?_, ?_⟩
    · intro s hs; cases hs
    · intro hv; injection hv with h2; subst h2; exact h50
  | boolv b =>
    cases b with
    | false =>
      refine ⟨0, rfl, le_refl 0, by norm_num, ?_, ?_⟩
      · intro s hs; cases hs
      · intro hv; cases hv
    | true => exact absurd rfl h
  | floatv q =>
    refine ⟨_, rfl, h0 _, h100 _, ?_, ?_⟩
    · intro s hs; cases hs
    · intro hv; cases hv
  | strv s =>
    cases hp : pyIntOfString s with
    | some n =>
      refine ⟨max 0 (min 100 n), ?_, h0 n, h100 n, ?_, ?_⟩
      · simp [processConfidence, hp]
      · intro s' hs hnone
        injection hs with h2; subst h2
        rw [hp] at hnone; cases hnone
      · intro hv; cases hv
    | none =>
      refine ⟨50, ?_, by norm_num, by norm_num, ?_, ?_⟩
      · simp [processConfidence, hp]
      · intro s' hs hnone; rfl
      · intro hv; cases hv
  | nullv =>
    refine ⟨50, rfl, by norm_num, by norm_num, ?_, ?_⟩
    · intro s hs; cases hs
    · intro hv; cases hv
  | listv l =>
    refine ⟨50, rfl, by norm_num, by norm_num, ?_, ?_⟩
    · intro s hs; cases hs
    · intro hv; cases hv
  | dictv d =>
    refine ⟨50, rfl, by norm_num, by norm_num, ?_, ?_⟩
    · intro s hs; cases hs
    · intro hv; cases hv

/-- C8 (counterexample): building the scene analysis *can* fail on an
untyped mapping.  A non-string `cleanliness_level` (here the int `3`)
crashes on `.lower()` (`AttributeError`), and a present-but-null
`detected_objects` reaches the typed model as `None` and is rejected
(the `.get(key, [])` default only covers a *missing* key). -/
theorem vision_analysis_claim_false :
    (∃ msg, build_vision_analysis [("cleanliness_level", PyVal.intv 3)] =
      .error msg) ∧
    (∃ msg, build_vision_analysis [("detected_objects", PyVal.nullv)] =
      .error msg) := by
  exact ⟨⟨_, rfl⟩, ⟨_, rfl⟩⟩

/-- C8 (amended): on every mapping whose `cleanliness_level`,
`indoor_outdoor` and `scene_summary` values are strings when present,
whose list fields are lists of strings when present, and whose
`confidence` is not the bool `True`, building the scene analysis
succeeds; unknown cleanliness or location strings degrade to
AVERAGE/UNCLEAR, the confidence is clamped to `[0,100]` and an
unparseable or missing confidence degrades to 50, and missing list
fields become empty lists. -/
theorem vision_analysis_amended (m : List (String × PyVal))
    (hcl : ∀ v, dictFind m "cleanliness_level" = some v → ∃ s, v = PyVal.strv s)
    (hloc : ∀ v, dictFind m "indoor_outdoor" = some v → ∃ s, v = PyVal.strv s)
    (hsum : ∀ v, dictFind m "scene_summary" = some v → ∃ s, v = PyVal.strv s)
    (hobj : ∀ v, dictFind m "detected_objects" = some v →
      ∃ ss : List String, v = PyVal.listv (ss.map PyVal.strv))
    (hdmg : ∀ v, dictFind m "damage_detected" = some v →
      ∃ ss : List String, v = PyVal.listv (ss.map PyVal.strv))
    (hhz : ∀ v, dictFind m "safety_hazards" = some v →
      ∃ ss : List String, v = PyVal.listv (ss.map PyVal.strv))
    (hconf : dictFind m "confidence" ≠ some (PyVal.boolv true)) :
    ∃ va, build_vision_analysis m = .ok va ∧
      0 ≤ va.confidence ∧ va.confidence ≤ 100 ∧
      (∀ s, dictGet m "cleanliness_level" (.strv "average") = PyVal.strv s →
        cleanlinessOfString (pyLower s) = none →
        va.cleanliness_level = .AVERAGE) ∧
      (∀ s, dictGet m "indoor_outdoor" (.strv "unclear") = PyVal.strv s →
        locationOfString (pyLower s) = none → va.indoor_outdoor = .UNCLEAR) ∧
      (∀ s, dictGet m "confidence" (.intv 50) = PyVal.strv s →
        pyIntOfString s = none → va.confidence = 50) ∧
      (dictFind m "confidence" = none → va.confidence = 50) ∧
      (dictFind m "detected_objects" = none → va.detected_objects = []) ∧
      (dictFind m "damage_detected" = none → va.damage_detected = []) ∧
      (dictFind m "safety_hazards" = none → va.safety_hazards = []) := by
  obtain ⟨s1, e1⟩ : ∃ s, dictGet m "cleanliness_level" (.strv "average") =
      PyVal.strv s := by
    rw [dictGet_eq]
    cases hfind : dictFind m "cleanliness_level" with
    | none => exact ⟨"average", rfl⟩
    | some v => obtain ⟨s, rfl⟩ := hcl v hfind; exact ⟨s, rfl⟩
  obtain ⟨s2, e2⟩ : ∃ s, dictGet m "indoor_outdoor" (.strv "unclear") =
      PyVal.strv s := by
    rw [dictGet_eq]
    cases hfind : dictFind m "indoor_outdoor" with
    | none => exact ⟨"unclear", rfl⟩
    | some v => obtain ⟨s, rfl⟩ := hloc v hfind; exact ⟨s, rfl⟩
  obtain ⟨s3, e3⟩ : ∃ s, dictGet m "scene_summary"
      (.strv "Unable to analyze image") = PyVal.strv s := by
    rw [dictGet_eq]
    cases hfind : dictFind m "scene_summary" with
    | none => exact ⟨"Unable to analyze image", rfl⟩
    | some v => obtain ⟨s, rfl⟩ := hsum v hfind; exact ⟨s, rfl⟩
  obtain ⟨ss4, e4⟩ : ∃ ss : List String, dictGet m "detected_objects"
      (.listv []) = PyVal.listv (ss.map PyVal.strv) := by
    rw [dictGet_eq]
    cases hfind : dictFind m "detected_objects" with
    | none => exact ⟨[], rfl⟩
    | some v => obtain ⟨ss, rfl⟩ := hobj v hfind; exact ⟨ss, rfl⟩
  obtain ⟨ss5, e5⟩ : ∃ ss : List String, dictGet m "damage_detected"
      (.listv []) = PyVal.listv (ss.map PyVal.strv) := by
    rw [dictGet_eq]
    cases hfind : dictFind m "damage_detected" with
    | none => exact ⟨[], rfl⟩
    | some v => obtain ⟨ss, rfl⟩ := hdmg v hfind; exact ⟨ss, rfl⟩
  obtain ⟨ss6, e6⟩ : ∃ ss : List String, dictGet m "safety_hazards"
      (.listv []) = PyVal.listv (ss.map PyVal.strv) := by
    rw [dictGet_eq]
    cases hfind : dictFind m "safety_hazards" with
    | none => exact ⟨[], rfl⟩
    | some v => obtain ⟨ss, rfl⟩ := hhz v hfind; exact ⟨ss, rfl⟩
  have hcv : dictGet m "confidence" (.intv 50) ≠ PyVal.boolv true := by
    rw [dictGet_eq]
    cases hfind : dictFind m "confidence" with
    | none => intro h; cases h
    | some v =>
      intro h
      rw [Option.getD_some] at h
      exact hconf (by rw [hfind, h])
  obtain ⟨cn, hc_ok, hc0, hc100, hcstr, hc50⟩ :=
    processConfidence_ok (dictGet m "confidence" (.intv 50)) hcv
  refine ⟨{ scene_summary := s3, detected_objects := ss4,
            damage_detected := ss5, safety_hazards := ss6,
            cleanliness_level := (cleanlinessOfString (pyLower s1)).getD .AVERAGE,
            indoor_outdoor := (locationOfString (pyLower s2)).getD .UNCLEAR,
            confidence := cn }, ?_, hc0, hc100, ?_, ?_, ?_, ?_, ?_, ?_, ?_⟩
  · unfold build_vision_analysis
    rw [e1, e2, e3, e4, e5, e6, hc_ok]
    simp only [pyLowerAttr, pydStr, pydStrList_map]
    rfl
  · intro s hs hnone
    rw [e1] at hs
    injection hs with h2
    subst h2
    simp [hnone]
  · intro s hs hnone
    rw [e2] at hs
    injection hs with h2
    subst h2
    simp [hnone]
  · intro s hs hnone
    exact hcstr s hs hnone
  · intro hnone
    refine hc50 ?_
    rw [dictGet_eq, hnone]
    rfl
  · intro hnone
    rw [dictGet_eq, hnone] at e4
    have h3 : ss4 = [] := by
      have h2 : PyVal.listv [] = PyVal.listv (ss4.map PyVal.strv) := e4
      injection h2 with hx
      cases ss4 with
      | nil => rfl
      | cons a t => simp at hx
    simp [h3]
  · intro hnone
    rw [dictGet_eq, hnone] at e5
    have h3 : ss5 = [] := by
      have h2 : PyVal.listv [] = PyVal.listv (ss5.map PyVal.strv) := e5
      injection h2 with hx
      cases ss5 with
      | nil => rfl
      | cons a t => simp at hx
    simp [h3]
  · intro hnone
    rw [dictGet_eq, hnone] at e6
    have h3 : ss6 = [] := by
      have h2 : PyVal.listv [] = PyVal.listv (ss6.map PyVal.strv) := e6
      injection h2 with hx
      cases ss6 with
      | nil => rfl
      | cons a t => simp at hx
    simp [h3]

/-- C8 witness: the amended statement applied to the concrete reply
`visionReplySample`. -/
theorem vision_analysis_amended_witness :
    (dictFind visionReplySample "confidence" ≠ some (PyVal.boolv true)) ∧
    ∃ va, build_vision_analysis visionReplySample = .ok va := by
  have h1 : ∀ v, dictFind visionReplySample "cleanliness_level" = some v →
      ∃ s, v = PyVal.strv s := by
    intro v hv
    have h0 : dictFind visionReplySample "cleanliness_level" =
        some (PyVal.strv "Immaculate") := rfl
    rw [h0] at hv
    injection hv with h2
    exact ⟨"Immaculate", h2.symm⟩
  have h2 : ∀ v, dictFind visionReplySample "indoor_outdoor" = some v →
      ∃ s, v = PyVal.strv s := by
    intro v hv
    have h0 : dictFind visionReplySample "indoor_outdoor" =
        some (PyVal.strv "OUTSIDE") := rfl
    rw [h0] at hv
    injection hv with h2
    exact ⟨"OUTSIDE", h2.symm⟩
  have h3 : ∀ v, dictFind visionReplySample "scene_summary" = some v →
      ∃ s, v = PyVal.strv s := by
    intro v hv
    have h0 : dictFind visionReplySample "scene_summary" = none := rfl
    rw [h0] at hv
    cases hv
  have h4 : ∀ v, dictFind visionReplySample "detected_objects" = some v →
      ∃ ss : List String, v = PyVal.listv (ss.map PyVal.strv) := by
    intro v hv
    have h0 : dictFind visionReplySample "detected_objects" =
        some (PyVal.listv [PyVal.strv "sink"]) := rfl
    rw [h0] at hv
    injection hv with hx
    exact ⟨["sink"], hx.symm⟩
  have h5 : ∀ v, dictFind visionReplySample "damage_detected" = some v →
      ∃ ss : List String, v = PyVal.listv (ss.map PyVal.strv) := by
    intro v hv
    have h0 : dictFind visionReplySample "damage_detected" = none := rfl
    rw [h0] at hv
    cases hv
  have h6 : ∀ v, dictFind visionReplySample "safety_hazards" = some v →
      ∃ ss : List String, v = PyVal.listv (ss.map PyVal.strv) := by
    intro v hv
    have h0 : dictFind visionReplySample "safety_hazards" = none := rfl
    rw [h0] at hv
    cases hv
  have h7 : dictFind visionReplySample "confidence" ≠
      some (PyVal.boolv true) := by
    have h0 : dictFind visionReplySample "confidence" =
        some (PyVal.strv "high") := rfl
    intro h
    rw [h0] at h
    injection h with hx
    exact PyVal.noConfusion hx
  obtain ⟨va, hva, _⟩ :=
    vision_analysis_amended visionReplySample h1 h2 h3 h4 h5 h6 h7
  exact ⟨h7, va, hva⟩

/-! ## Rounding lemmas for the binary64 model (towards claim C2) -/

/-- Round-to-nearest never moves a value down by more than a half. -/
theorem rneInt_ge (q : ℚ) : q - 1/2 ≤ (rneInt q : ℚ) := by
  unfold rneInt
  split_ifs <;> push_cast <;>
    linarith [Int.floor_le q, Int.lt_floor_add_one q]

/-- Round-to-nearest never moves a value up by more than a half. -/
theorem rneInt_le (q : ℚ) : (rneInt q : ℚ) ≤ q + 1/2 := by
  unfold rneInt
  split_ifs <;> push_cast <;>
    linarith [Int.floor_le q, Int.lt_floor_add_one q]

/-- A value strictly inside `(m - 1/2, m + 1/2)` rounds to `m` — no tie
can occur there, so the rounding is convention-independent. -/
theorem rneInt_eq_of_between (m : ℤ) (q : ℚ)
    (h1 : (m:ℚ) - 1/2 < q) (h2 : q < (m:ℚ) + 1/2) : rneInt q = m := by
  have hfl_le : ⌊q⌋ ≤ m := by
    rw [Int.floor_le_iff]
    linarith
  have hfl_ge : m - 1 ≤ ⌊q⌋ := by
    rw [Int.le_floor]
    push_cast
    linarith
  have hcase : ⌊q⌋ = m ∨ ⌊q⌋ = m - 1 := by omega
  rcases hcase with h | h
  · unfold rneInt
    rw [h]
    rw [if_pos (by linarith)]
  · unfold rneInt
    rw [h]
    rw [if_neg (by push_cast; linarith), if_pos (by push_cast; linarith)]
    omega

/-- The exponent search never overshoots the true binade. -/
theorem findExpGo_le (a : ℚ) (E : ℤ) (hlt : a < 2^(E+1)) :
    ∀ (n : ℕ) (st : ℤ), st ≤ E → findExpGo a st n ≤ E := by
  intro n
  induction n with
  | zero => intro st hst; exact hst
  | succ k ih =>
    intro st hst
    simp only [findExpGo]
    split_ifs with hc
    · refine ih (st + 1) ?_
      have hlt2 : (2:ℚ)^(st+1) < 2^(E+1) := lt_of_le_of_lt hc hlt
      have := (zpow_lt_zpow_iff_right₀ (by norm_num : (1:ℚ) < 2)).mp hlt2
      omega
    · exact hst

/-- A nonnegative value rounds to a nonnegative double. -/
theorem roundDouble_nonneg (q : ℚ) (hq : 0 ≤ q) : 0 ≤ roundDouble q := by
  unfold roundDouble
  split_ifs with h0 hpos
  · exact le_refl 0
  · set k : ℤ := 52 - findExp q with hk
    have h2k : (0:ℚ) < 2^k := zpow_pos (by norm_num) k
    have hx : (0:ℚ) < q * 2^k := mul_pos (lt_of_le_of_ne hq (Ne.symm h0)) h2k
    have hr : (-1 : ℚ) < (rneInt (q * 2^k) : ℚ) := by
      have := rneInt_ge (q * 2^k)
      linarith
    have hr2 : (0 : ℤ) ≤ rneInt (q * 2^k) := by
      have : (-1 : ℤ) < rneInt (q * 2^k) := by exact_mod_cast hr
      omega
    positivity
  · exact absurd (lt_of_le_of_ne hq (Ne.symm h0)) hpos

/-- Rounding error of the binade-aware rounding: if `q < 2^(E+1)` (with
`E` at least the search floor `-3`) the result stays within `2^(E-53)`. -/
theorem roundDouble_bounds (q : ℚ) (E : ℤ) (hq0 : 0 ≤ q) (hE : -3 ≤ E)
    (hlt : q < 2^(E+1)) :
    q - 2^(E-53) ≤ roundDouble q ∧ roundDouble q ≤ q + 2^(E-53) := by
  have hpowE : (0:ℚ) < 2^(E-53) := zpow_pos (by norm_num) _
  by_cases h0 : q = 0
  · subst h0
    rw [roundDouble]
    norm_num
    linarith
  · have hpos : 0 < q := lt_of_le_of_ne hq0 (Ne.symm h0)
    have he : findExp q ≤ E := findExpGo_le q E hlt 12 (-3) hE
    set e : ℤ := findExp q with hedef
    set k : ℤ := 52 - e with hk
    have h2k : (0:ℚ) < 2^k := zpow_pos (by norm_num) k
    have hround : roundDouble q = (rneInt (q * 2^k) : ℚ) / 2^k := by
      rw [roundDouble, if_neg h0, if_pos hpos]
    have hup := rneInt_le (q * 2^k)
    have hlo := rneInt_ge (q * 2^k)
    have hkey : (1:ℚ)/2 ≤ 2^(E-53) * 2^k := by
      rw [← zpow_add₀ (by norm_num : (2:ℚ) ≠ 0)]
      have h2 : (2:ℚ)^(-1:ℤ) ≤ 2^(E-53+k) :=
        zpow_le_zpow_right₀ (by norm_num) (by omega)
      have h3 : (2:ℚ)^(-1:ℤ) = 1/2 := by norm_num
      exact le_trans (le_of_eq h3.symm) h2
    constructor
    · rw [hround, le_div_iff₀ h2k]
      have hexp : (q - 2^(E-53)) * 2^k = q * 2^k - 2^(E-53) * 2^k := by ring
      rw [hexp]
      linarith
    · rw [hround, div_le_iff₀ h2k]
      have hexp : (q + 2^(E-53)) * 2^k = q * 2^k + 2^(E-53) * 2^k := by ring
      rw [hexp]
      linarith

/-- The binary64 value of the literal `0.3`. -/
theorem pyFloat03_eq : pyFloat03 = 5404319552844595 / 18014398509481984 := by
  norm_num [pyFloat03, roundDouble, findExp, findExpGo, rneInt]

/-- The binary64 value of the literal `0.4`. -/
theorem pyFloat04_eq : pyFloat04 = 3602879701896397 / 9007199254740992 := by
  norm_num [pyFloat04, roundDouble, findExp, findExpGo, rneInt]

/-- Multiplying a slightly-perturbed weight by an integer in `[0,100]`
perturbs the ideal product by at most `100/2^55`. -/
theorem mul_err (w wid x : ℚ) (hx0 : 0 ≤ x) (hx1 : x ≤ 100)
    (hw1 : wid - 1/2^55 ≤ w) (hw2 : w ≤ wid + 1/2^55) :
    wid * x - 100 * (1/2^55) ≤ w * x ∧ w * x ≤ wid * x + 100 * (1/2^55) := by
  constructor
  · have h1 : (wid - 1/2^55) * x ≤ w * x := mul_le_mul_of_nonneg_right hw1 hx0
    have h2 : (wid - 1/2^55) * x = wid * x - (1/2^55) * x := by ring
    have h3 : (1/2^55 : ℚ) * x ≤ (1/2^55) * 100 :=
      mul_le_mul_of_nonneg_left hx1 (by norm_num)
    linarith
  · have h1 : w * x ≤ (wid + 1/2^55) * x := mul_le_mul_of_nonneg_right hw2 hx0
    have h2 : (wid + 1/2^55) * x = wid * x + (1/2^55) * x := by ring
    have h3 : (1/2^55 : ℚ) * x ≤ (1/2^55) * 100 :=
      mul_le_mul_of_nonneg_left hx1 (by norm_num)
    linarith

/-- The float-evaluated weighted sum stays within `2^-43` of the exact
rational weighted sum, for score inputs in `[0,100]`. -/
theorem floatWeightedSum_close (a b c : ℤ)
    (ha0 : 0 ≤ a) (ha1 : a ≤ 100) (hb0 : 0 ≤ b) (hb1 : b ≤ 100)
    (hc0 : 0 ≤ c) (hc1 : c ≤ 100) :
    ((3*a + 3*b + 4*c : ℤ) : ℚ)/10 - 1/2^43 ≤ floatWeightedSum a b c ∧
    floatWeightedSum a b c ≤ ((3*a + 3*b + 4*c : ℤ) : ℚ)/10 + 1/2^43 := by
  have haq0 : (0:ℚ) ≤ (a:ℚ) := by exact_mod_cast ha0
  have haq1 : (a:ℚ) ≤ 100 := by exact_mod_cast ha1
  have hbq0 : (0:ℚ) ≤ (b:ℚ) := by exact_mod_cast hb0
  have hbq1 : (b:ℚ) ≤ 100 := by exact_mod_cast hb1
  have hcq0 : (0:ℚ) ≤ (c:ℚ) := by exact_mod_cast hc0
  have hcq1 : (c:ℚ) ≤ 100 := by exact_mod_cast hc1
  have e03 := pyFloat03_eq
  have e04 := pyFloat04_eq
  have h03lo : (3:ℚ)/10 - 1/2^55 ≤ pyFloat03 := by rw [e03]; norm_num
  have h03hi : pyFloat03 ≤ 3/10 + 1/2^55 := by rw [e03]; norm_num
  have h04lo : (2:ℚ)/5 - 1/2^55 ≤ pyFloat04 := by rw [e04]; norm_num
  have h04hi : pyFloat04 ≤ 2/5 + 1/2^55 := by rw [e04]; norm_num
  have h03pos : (0:ℚ) ≤ pyFloat03 := by rw [e03]; norm_num
  have h04pos : (0:ℚ) ≤ pyFloat04 := by rw [e04]; norm_num
  obtain ⟨hm1lo, hm1hi⟩ := mul_err pyFloat03 (3/10) (a:ℚ) haq0 haq1 h03lo h03hi
  obtain ⟨hm2lo, hm2hi⟩ := mul_err pyFloat03 (3/10) (b:ℚ) hbq0 hbq1 h03lo h03hi
  obtain ⟨hm3lo, hm3hi⟩ := mul_err pyFloat04 (2/5) (c:ℚ) hcq0 hcq1 h04lo h04hi
  have hm1_0 : (0:ℚ) ≤ pyFloat03 * a := mul_nonneg h03pos haq0
  have hm2_0 : (0:ℚ) ≤ pyFloat03 * b := mul_nonneg h03pos hbq0
  have hm3_0 : (0:ℚ) ≤ pyFloat04 * c := mul_nonneg h04pos hcq0
  have hE4 : (2:ℚ)^((4:ℤ)-53) = 1/2^49 := by norm_num
  have hE5 : (2:ℚ)^((5:ℤ)-53) = 1/2^48 := by norm_num
  have hE6 : (2:ℚ)^((6:ℤ)-53) = 1/2^47 := by norm_num
  have hm1big : pyFloat03 * (a:ℚ) < 2^((4:ℤ)+1) := by
    have h32 : (2:ℚ)^((4:ℤ)+1) = 32 := by norm_num
    rw [h32]; linarith
  have hm2big : pyFloat03 * (b:ℚ) < 2^((4:ℤ)+1) := by
    have h32 : (2:ℚ)^((4:ℤ)+1) = 32 := by norm_num
    rw [h32]; linarith
  have hm3big : pyFloat04 * (c:ℚ) < 2^((5:ℤ)+1) := by
    have h64 : (2:ℚ)^((5:ℤ)+1) = 64 := by norm_num
    rw [h64]; linarith
  obtain ⟨hp1lo, hp1hi⟩ :=
    roundDouble_bounds (pyFloat03 * a) 4 hm1_0 (by norm_num) hm1big
  obtain ⟨hp2lo, hp2hi⟩ :=
    roundDouble_bounds (pyFloat03 * b) 4 hm2_0 (by norm_num) hm2big
  obtain ⟨hp3lo, hp3hi⟩ :=
    roundDouble_bounds (pyFloat04 * c) 5 hm3_0 (by norm_num) hm3big
  rw [hE4] at hp1lo hp1hi hp2lo hp2hi
  rw [hE5] at hp3lo hp3hi
  have hp1_0 : 0 ≤ roundDouble (pyFloat03 * a) := roundDouble_nonneg _ hm1_0
  have hp2_0 : 0 ≤ roundDouble (pyFloat03 * b) := roundDouble_nonneg _ hm2_0
  have hp3_0 : 0 ≤ roundDouble (pyFloat04 * c) := roundDouble_nonneg _ hm3_0
  set p1 := roundDouble (pyFloat03 * (a:ℚ)) with hp1def
  set p2 := roundDouble (pyFloat03 * (b:ℚ)) with hp2def
  set p3 := roundDouble (pyFloat04 * (c:ℚ)) with hp3def
  have hs1arg_0 : (0:ℚ) ≤ p1 + p2 := add_nonneg hp1_0 hp2_0
  have hs1big : p1 + p2 < 2^((5:ℤ)+1) := by
    have h64 : (2:ℚ)^((5:ℤ)+1) = 64 := by norm_num
    rw [h64]; linarith
  obtain ⟨hs1lo, hs1hi⟩ :=
    roundDouble_bounds (p1 + p2) 5 hs1arg_0 (by norm_num) hs1big
  rw [hE5] at hs1lo hs1hi
  have hs1_0 : 0 ≤ roundDouble (p1 + p2) := roundDouble_nonneg _ hs1arg_0
  set s1 := roundDouble (p1 + p2) with hs1def
  have hsarg_0 : (0:ℚ) ≤ s1 + p3 := add_nonneg hs1_0 hp3_0
  have hsbig : s1 + p3 < 2^((6:ℤ)+1) := by
    have h128 : (2:ℚ)^((6:ℤ)+1) = 128 := by norm_num
    rw [h128]; linarith
  obtain ⟨hslo, hshi⟩ :=
    roundDouble_bounds (s1 + p3) 6 hsarg_0 (by norm_num) hsbig
  rw [hE6] at hslo hshi
  have hideal : ((3*a + 3*b + 4*c : ℤ) : ℚ)/10 =
      3/10 * (a:ℚ) + 3/10 * (b:ℚ) + 2/5 * (c:ℚ) := by
    push_cast
    ring
  have hsum : floatWeightedSum a b c = roundDouble (s1 + p3) := rfl
  rw [hsum, hideal]
  constructor <;> linarith

/-! ## Claim C2 -/

/-- C2 (counterexample): the claimed closed formula disagrees with the
float computation at exact-half points, whichever rounding convention
"round" means.  At `(0, 3, 24)` the exact sum is `10.5`: Python's own
`round` (half-to-even) gives 10, but the float sum is `10.500000000000002`
and the code returns 11.  At `(0, 3, 4)` the exact sum is `2.5`:
round-half-up gives 3, but the float sum falls just below the midpoint and
the code returns 2. -/
theorem final_score_claim_false :
    calculate_final_score 0 3 24 = 11 ∧ specFinalScoreEven 0 3 24 = 10 ∧
    calculate_final_score 0 3 4 = 2 ∧ specFinalScoreUp 0 3 4 = 3 := by
  refine ⟨?_, ?_, ?_, ?_⟩ <;>
    norm_num [calculate_final_score, specFinalScoreEven, specFinalScoreUp,
      floatWeightedSum, pyFloat03, pyFloat04, roundDouble, findExp,
      findExpGo, rneInt, min_def, max_def]

/-- C2 (amended): for integer inputs in `[0,100]` whose exact weighted sum
`(3a+3b+4c)/10` is not exactly midway between two integers, the final
score equals `round(0.3*a + 0.3*b + 0.4*c)` clamped to `[0,100]`, and
there the half-to-even and half-up readings of `round` agree; at the
midway inputs the direction is decided by the binary64 evaluation of the
sum and can fall on either side.  The example `70, 80, 90 ↦ 81` holds. -/
theorem final_score_amended (a b c : ℤ)
    (ha0 : 0 ≤ a) (ha1 : a ≤ 100) (hb0 : 0 ≤ b) (hb1 : b ≤ 100)
    (hc0 : 0 ≤ c) (hc1 : c ≤ 100)
    (hmod : (3*a + 3*b + 4*c) % 10 ≠ 5) :
    calculate_final_score a b c = specFinalScoreEven a b c ∧
    specFinalScoreEven a b c = specFinalScoreUp a b c ∧
    calculate_final_score 70 80 90 = 81 := by
  have hex : calculate_final_score 70 80 90 = 81 := by
    norm_num [calculate_final_score, floatWeightedSum, pyFloat03, pyFloat04,
      roundDouble, findExp, findExpGo, rneInt, min_def, max_def]
  obtain ⟨hlo, hhi⟩ := floatWeightedSum_close a b c ha0 ha1 hb0 hb1 hc0 hc1
  set n : ℤ := 3*a + 3*b + 4*c with hn
  have hq : n = 10 * (n / 10) + n % 10 := (Int.ediv_add_emod n 10).symm
  set qI : ℤ := n / 10 with hqdef
  set r : ℤ := n % 10 with hrdef
  have hr0 : (0:ℤ) ≤ r := Int.emod_nonneg n (by norm_num)
  have hr9 : r < 10 := Int.emod_lt_of_pos n (by norm_num)
  have hrq0 : (0:ℚ) ≤ (r:ℚ) := by exact_mod_cast hr0
  have hnq : ((n:ℤ):ℚ)/10 = (qI:ℚ) + (r:ℚ)/10 := by
    rw [hq]
    push_cast
    ring
  rw [hnq] at hlo hhi
  have hcase : r ≤ 4 ∨ 6 ≤ r := by omega
  have key : ∃ m : ℤ, rneInt (floatWeightedSum a b c) = m ∧
      rneInt ((n:ℚ)/10) = m ∧ ⌊(n:ℚ)/10 + 1/2⌋ = m := by
    rcases hcase with hr4 | hr6
    · have hrq4 : (r:ℚ) ≤ 4 := by exact_mod_cast hr4
      refine ⟨qI, ?_, ?_, ?_⟩
      · apply rneInt_eq_of_between <;> linarith
      · apply rneInt_eq_of_between <;> rw [hnq] <;> linarith
      · rw [Int.floor_eq_iff, hnq]
        constructor <;> [linarith; (push_cast; linarith)]
    · have hrq6 : (6:ℚ) ≤ (r:ℚ) := by exact_mod_cast hr6
      have hrq9 : (r:ℚ) ≤ 9 := by exact_mod_cast (by omega : r ≤ 9)
      refine ⟨qI + 1, ?_, ?_, ?_⟩
      · apply rneInt_eq_of_between <;> push_cast <;> linarith
      · apply rneInt_eq_of_between <;> rw [hnq] <;> push_cast <;> linarith
      · rw [Int.floor_eq_iff, hnq]
        constructor <;> push_cast <;> linarith
  obtain ⟨m, h1, h2, h3⟩ := key
  refine ⟨?_, ?_, hex⟩
  · unfold calculate_final_score specFinalScoreEven
    rw [← hn, h1, h2]
  · unfold specFinalScoreEven specFinalScoreUp
    rw [← hn, h2, h3]

/-- C2 witness: the amended statement applied at `(70, 80, 90)`, whose
exact weighted sum `81` is not a midpoint. -/
theorem final_score_amended_witness :
    ((3*70 + 3*80 + 4*90) % 10 ≠ 5) ∧
    calculate_final_score 70 80 90 = specFinalScoreEven 70 80 90 ∧
    calculate_final_score 70 80 90 = 81 :=
  ⟨by decide,
    (final_score_amended 70 80 90 (by decide) (by decide) (by decide)
      (by decide) (by decide) (by decide) (by decide)).1,
    (final_score_amended 70 80 90 (by decide) (by decide) (by decide)
      (by decide) (by decide) (by decide) (by decide)).2.2⟩

/-! ## Claim C3 -/

/-- C3 (counterexample): when every parse attempt fails, the sentinel
mapping carries the *stripped* response text, not the original input
verbatim — `_parse_json_response` strips before its first parse attempt
and stores the stripped `text` as `raw_response`. -/
theorem parse_json_verbatim_claim_false :
    parse_json_response loadsDemo " hello " = parseFailSentinel "hello" ∧
    ("hello" : String) ≠ " hello " := by
  exact ⟨rfl, by decide⟩

/-- C3 (amended): the repair function is total (it always returns a
mapping); a directly-parseable object, the same object inside a
` ```json ` fenced block, and the same object embedded as the bare
brace-delimited substring all yield the very mapping `loads` produces for
the object text; and when every parse attempt — the stripped text, each
fenced-block capture, and the brace-delimited candidate — fails, the
sentinel mapping carries the parse-failure flag and the
whitespace-*stripped* input text. -/
theorem parse_json_response_amended (loads : String → Option PyVal)
    (o : PyVal) (j t2 t3 t4 : String) :
    (pyStrip j = j → loads j = some o → parse_json_response loads j = o) ∧
    (loads (pyStrip t2) = none →
      fenceMatches "```json" (pyStrip t2) = [j] →
      loads j = some o → parse_json_response loads t2 = o) ∧
    (loads (pyStrip t3) = none →
      fenceMatches "```json" (pyStrip t3) = [] →
      fenceMatches "```" (pyStrip t3) = [] →
      (braceCandidate (pyStrip t3).toList).map List.asString = some j →
      loads j = some o → parse_json_response loads t3 = o) ∧
    (loads (pyStrip t4) = none →
      firstParse loads (fenceMatches "```json" (pyStrip t4)) = none →
      firstParse loads (fenceMatches "```" (pyStrip t4)) = none →
      (∀ cand, (braceCandidate (pyStrip t4).toList).map List.asString =
        some cand → loads cand = none) →
      parse_json_response loads t4 = parseFailSentinel (pyStrip t4)) := by
  refine ⟨?_, ?_, ?_, ?_⟩
  · intro h1 h2
    simp only [parse_json_response, h1, h2]
  · intro hd hext hj
    simp only [parse_json_response, hd, hext, firstParse, hj]
  · intro hd hf1 hf2 hbc hj
    simp only [parse_json_response, hd, hf1, hf2, firstParse, hbc, hj]
  · intro hd hf1 hf2 hbc
    cases hmap : (braceCandidate (pyStrip t4).toList).map List.asString with
    | none => simp only [parse_json_response, hd, hf1, hf2, hmap]
    | some cand =>
      simp only [parse_json_response, hd, hf1, hf2, hmap, hbc cand hmap]

/-- C3 witness: the amended statement applied at the concrete texts —
`sampleJson` directly, fenced, embedded in prose, and pure noise. -/
theorem parse_json_response_amended_witness :
    fenceMatches "```json" (pyStrip sampleFenced) = [sampleJson] ∧
    parse_json_response loadsDemo sampleJson = sampleObj ∧
    parse_json_response loadsDemo sampleFenced = sampleObj ∧
    parse_json_response loadsDemo sampleEmbedded = sampleObj ∧
    parse_json_response loadsDemo sampleNoise =
      parseFailSentinel sampleNoise := by
  refine ⟨rfl, ?_, ?_, ?_, ?_⟩
  · exact (parse_json_response_amended loadsDemo sampleObj sampleJson
      sampleFenced sampleEmbedded sampleNoise).1 rfl rfl
  · exact (parse_json_response_amended loadsDemo sampleObj sampleJson
      sampleFenced sampleEmbedded sampleNoise).2.1 rfl rfl rfl
  · exact (parse_json_response_amended loadsDemo sampleObj sampleJson
      sampleFenced sampleEmbedded sampleNoise).2.2.1 rfl rfl rfl rfl rfl
  · exact (parse_json_response_amended loadsDemo sampleObj sampleJson
      sampleFenced sampleEmbedded sampleNoise).2.2.2 rfl rfl rfl
      (fun cand h => by cases h)

end RentShield
